import Mathlib

/-!
Shallow embedding of the intelligent-ops-dashboard pipeline
(`src/lambda/ai-analysis/handler.py`, `src/lambda/process/handler.py`,
`src/lambda/ai/handler.py`), together with theorems checking the
natural-language specification's claims against the code.

Python floats are modelled as rationals (`ℚ`); all arithmetic in the
embedded fragment is addition, subtraction, multiplication, division and
comparison of decimal constants, which rationals model faithfully.
Python dicts of metrics are modelled as partial maps `String → Option ℚ`;
`dict.get(k, d)` becomes `getD m k d`.
-/

namespace IOps

/-- A sparse metrics record: any key may be absent (Python dict). -/
def Metrics : Type := String → Option ℚ

/-- `metrics.get(key, default)` from the Python source. -/
def getD (m : Metrics) (k : String) (d : ℚ) : ℚ := (m k).getD d

/-- Canonical prediction record returned by `invoke_sagemaker`
(`ai-analysis/handler.py` lines 252-307). -/
structure Pred where
  first_session_success : ℚ
  session_velocity : ℚ
  churn_risk_14d : ℚ
  churn_risk_30d : ℚ
  health_score : ℚ
deriving DecidableEq, Repr

/-- `engineer_tutor_features` (`ai-analysis/handler.py` lines 22-118):
the 46 tutor features in source order, with the source's defaults. -/
def engineer_tutor_features (m : Metrics) : List ℚ :=
  -- Session Performance (13 features)
  let sessions_taught_7d := getD m "sessions_taught_7d" 0
  let sessions_taught_14d := getD m "sessions_taught_14d" 0
  let sessions_taught_30d := getD m "sessions_taught_30d" 0
  let sessions_completed_7d := getD m "sessions_completed_7d" 0
  let sessions_completed_14d := getD m "sessions_completed_14d" 0
  let sessions_completed_30d := getD m "sessions_completed_30d" 0
  let avg_session_duration_min := getD m "avg_session_duration_min" 60
  let session_completion_rate := getD m "session_completion_rate" 0.95
  let no_show_rate := getD m "no_show_rate" 0
  let cancellation_rate := getD m "cancellation_rate" 0
  let days_since_last_session := getD m "days_since_last_session" 7
  let session_frequency_7d := sessions_taught_7d / 7
  let session_frequency_14d := sessions_taught_14d / 14
  -- Student Satisfaction (8 features)
  let avg_rating := getD m "avg_rating" 4.5
  let rating_trend := getD m "rating_trend" 0
  let rating_volatility := getD m "rating_volatility" 0
  let positive_reviews_30d := getD m "positive_reviews_count_30d" 0
  let negative_reviews_30d := getD m "negative_reviews_count_30d" 0
  let student_retention_rate := getD m "student_retention_rate" 0.7
  let unique_students_30d := getD m "unique_students_30d" 10
  let avg_student_lifetime_sessions := getD m "avg_student_lifetime_sessions" 5
  -- Availability & Capacity (6 features)
  let available_hours_this_week := getD m "available_hours_this_week" 20
  let available_hours_next_week := getD m "available_hours_next_week" 20
  let utilization_rate := getD m "utilization_rate" 0.6
  let instant_book_enabled := getD m "instant_book_enabled" 1
  let avg_response_time_hours := getD m "avg_response_time_hours" 2
  let booking_lead_time_avg_hours := getD m "booking_lead_time_avg_hours" 48
  -- Subject Expertise (10 features)
  let primary_subject_count := getD m "primary_subject_count" 1
  let subject_diversity_score := getD m "subject_diversity_score" 0.5
  let avg_rating_by_subject := getD m "avg_rating_by_subject" 4.5
  let sessions_per_subject_30d := getD m "sessions_per_subject_30d" 10
  let subject_match_accuracy := getD m "subject_match_accuracy" 0.8
  let certification_count := getD m "certification_count" 2
  let years_of_experience := getD m "years_of_experience" 3
  let specialization_score := getD m "specialization_score" 0.7
  let advanced_topics_count := getD m "advanced_topics_count" 1
  let student_grade_improvement_avg := getD m "student_grade_improvement_avg" 10
  -- Financial & Business (9 features)
  let total_earnings_30d := getD m "total_earnings_30d" 1000
  let avg_earnings_per_session := getD m "avg_earnings_per_session" 50
  let earnings_trend := getD m "earnings_trend" 0
  let premium_tier_sessions_ratio := getD m "premium_tier_sessions_ratio" 0.3
  let discount_sessions_ratio := getD m "discount_sessions_ratio" 0.1
  let payment_disputes_30d := getD m "payment_disputes_count_30d" 0
  let refund_rate_30d := getD m "refund_rate_30d" 0
  let pricing_competitiveness_score := getD m "pricing_competitiveness_score" 0.75
  let revenue_per_available_hour := getD m "revenue_per_available_hour" 25
  [sessions_taught_7d, sessions_taught_14d, sessions_taught_30d,
   sessions_completed_7d, sessions_completed_14d, sessions_completed_30d,
   avg_session_duration_min, session_completion_rate,
   no_show_rate, cancellation_rate, days_since_last_session,
   session_frequency_7d, session_frequency_14d,
   avg_rating, rating_trend, rating_volatility,
   positive_reviews_30d, negative_reviews_30d, student_retention_rate,
   unique_students_30d, avg_student_lifetime_sessions,
   available_hours_this_week, available_hours_next_week, utilization_rate,
   instant_book_enabled, avg_response_time_hours, booking_lead_time_avg_hours,
   primary_subject_count, subject_diversity_score, avg_rating_by_subject,
   sessions_per_subject_30d, subject_match_accuracy, certification_count,
   years_of_experience, specialization_score, advanced_topics_count,
   student_grade_improvement_avg,
   total_earnings_30d, avg_earnings_per_session, earnings_trend,
   premium_tier_sessions_ratio, discount_sessions_ratio, payment_disputes_30d,
   refund_rate_30d, pricing_competitiveness_score, revenue_per_available_hour]

/-- `engineer_features` (`ai-analysis/handler.py` lines 120-250):
dispatches to the tutor variant for `entity_type == 'tutor'`, otherwise
builds the 46 student features in source order with the source's defaults. -/
def engineer_features (m : Metrics) (entity_type : String) : List ℚ :=
  if entity_type = "tutor" then engineer_tutor_features m
  else
    -- Session counts (3 features)
    let sessions_7d := getD m "sessions_7d" 0
    let sessions_14d := getD m "sessions_14d" 0
    let sessions_30d := getD m "sessions_30d" 0
    -- Session frequencies (3 features)
    let session_freq_7d := sessions_7d / 7
    let session_freq_14d := sessions_14d / 14
    let session_freq_30d := sessions_30d / 30
    -- Session gaps and trends (7 features)
    let days_since_last := getD m "days_since_last_session" 30
    let avg_gap_between_sessions := if sessions_30d > 0 then 30 / sessions_30d else 30
    let session_trend_7d_14d :=
      if sessions_14d > sessions_7d then sessions_7d - (sessions_14d - sessions_7d) else 0
    let session_trend_14d_30d :=
      if sessions_30d > sessions_14d then sessions_14d - (sessions_30d - sessions_14d) else 0
    let session_acceleration := session_trend_7d_14d - session_trend_14d_30d
    let sessions_weekend_ratio := getD m "sessions_weekend_ratio" 0.3
    let sessions_evening_ratio := getD m "sessions_evening_ratio" 0.5
    -- Engagement features (8 features)
    let avg_rating := getD m "avg_rating" 0
    let rating_trend := getD m "rating_trend" 0
    let rating_volatility := getD m "rating_volatility" 0
    let avg_session_duration_min := getD m "avg_session_duration_min" 60
    let total_session_hours := getD m "total_session_hours_30d" 0
    let engagement_score := getD m "engagement_score" 50
    let questions_asked_30d := getD m "questions_asked_30d" 0
    let materials_accessed_30d := getD m "materials_accessed_30d" 0
    -- Financial features (6 features)
    let payment_success_rate := getD m "payment_success_rate_30d" 1
    let payment_failures_30d := getD m "payment_failures_30d" 0
    let avg_transaction_value := getD m "avg_transaction_value" 50
    let total_revenue_30d := getD m "total_revenue_30d" 0
    let payment_method_count := getD m "payment_method_count" 1
    let days_since_last_payment := getD m "days_since_last_payment" 7
    -- Behavioral features (10 features)
    let ib_calls_7d := getD m "ib_calls_7d" 0
    let ib_calls_14d := getD m "ib_calls_14d" 0
    let ib_call_rate := ib_calls_14d / 14
    let cancellation_rate_7d := getD m "cancellation_rate_7d" 0
    let cancellation_rate_30d := getD m "cancellation_rate_30d" 0
    let no_show_rate_30d := getD m "no_show_rate_30d" 0
    let late_cancellations_30d := getD m "late_cancellations_30d" 0
    let response_time_hours := getD m "avg_response_time_hours" 24
    let support_tickets_30d := getD m "support_tickets_30d" 0
    let complaints_30d := getD m "complaints_30d" 0
    -- Tutor features (9 features)
    let tutor_consistency_score := getD m "tutor_consistency_score" 0.5
    let unique_tutors_30d := getD m "unique_tutors_30d" 1
    let preferred_tutor_ratio := getD m "preferred_tutor_ratio" 0.7
    let tutor_rating_avg := getD m "tutor_rating_avg" 4
    let tutor_availability_score := getD m "tutor_availability_score" 0.8
    let tutor_subject_expertise := getD m "tutor_subject_expertise_score" 0.7
    let tutor_match_score := getD m "tutor_match_score" 0.75
    let tutor_changed_count_30d := getD m "tutor_changed_count_30d" 0
    let preferred_tutor_sessions_ratio := getD m "preferred_tutor_sessions_ratio" 0.8
    [sessions_7d, sessions_14d, sessions_30d,
     session_freq_7d, session_freq_14d, session_freq_30d,
     days_since_last, avg_gap_between_sessions, session_trend_7d_14d,
     session_trend_14d_30d, session_acceleration, sessions_weekend_ratio,
     sessions_evening_ratio,
     avg_rating, rating_trend, rating_volatility, avg_session_duration_min,
     total_session_hours, engagement_score, questions_asked_30d,
     materials_accessed_30d,
     payment_success_rate, payment_failures_30d, avg_transaction_value,
     total_revenue_30d, payment_method_count, days_since_last_payment,
     ib_calls_7d, ib_calls_14d, ib_call_rate, cancellation_rate_7d,
     cancellation_rate_30d, no_show_rate_30d, late_cancellations_30d,
     response_time_hours, support_tickets_30d, complaints_30d,
     tutor_consistency_score, unique_tutors_30d, preferred_tutor_ratio,
     tutor_rating_avg, tutor_availability_score, tutor_subject_expertise,
     tutor_match_score, tutor_changed_count_30d, preferred_tutor_sessions_ratio]

/-- `classify_segment` (`ai-analysis/handler.py` lines 309-350):
ordered if/elif decision chain over the prediction record. -/
def classify_segment (p : Pred) (entity_type : String) : String :=
  if entity_type = "tutor" then
    -- `churn_risk_14d` reinterpreted as burnout_risk for tutors
    let burnout := p.churn_risk_14d
    let health := p.health_score
    if burnout > 0.7 ∨ health < 40 then "churning"
    else if burnout > 0.4 ∨ health < 60 then "at_risk"
    else if burnout < 0.2 ∧ health > 80 then "star"
    else "healthy"
  else
    let churn_14d := p.churn_risk_14d
    let churn_30d := p.churn_risk_30d
    let health := p.health_score
    if churn_14d > 0.7 ∨ health < 40 then "churned"
    else if churn_14d > 0.4 ∨ churn_30d > 0.6 ∨ health < 60 then "at_risk"
    else if churn_14d < 0.2 ∧ health > 80 then "thriving"
    else "healthy"

/-- The student segmentation rules written as an explicit priority list
(spec section 4.3/8): each rule is a guard plus a label, in the priority
order churned, at_risk, thriving; `healthy` is the catch-all. -/
def student_rule_list (p : Pred) : List (Bool × String) :=
  [(decide (p.churn_risk_14d > 0.7 ∨ p.health_score < 40), "churned"),
   (decide (p.churn_risk_14d > 0.4 ∨ p.churn_risk_30d > 0.6 ∨ p.health_score < 60), "at_risk"),
   (decide (p.churn_risk_14d < 0.2 ∧ p.health_score > 80), "thriving")]

/-- First-matching-rule semantics over `student_rule_list`, defaulting to
`healthy` when no rule fires (spec-side reading of the decision table). -/
def first_matching_student_rule (p : Pred) : String :=
  (((student_rule_list p).find? Prod.fst).map Prod.snd).getD "healthy"

/-- The two response shapes parsed by `invoke_sagemaker`
(`ai-analysis/handler.py` lines 274-296): `result['predictions'][0]` is
either a keyed map from field name to a list of values, or a flat array. -/
inductive SMPredictions where
  | dictResp (fields : String → Option (List ℚ))
  | arrayResp (vals : List ℚ)

/-- Field extraction from the parsed response body: a missing key, an empty
value list or a too-short array raises (KeyError/IndexError) inside the
`try` block, exactly like the Python source. -/
def parse_predictions : SMPredictions → Except String Pred
  | .dictResp fields => do
    let fss ← ((fields "first_session_success").bind List.head?).elim
      (Except.error "KeyError") Except.ok
    let sv ← ((fields "session_velocity").bind List.head?).elim
      (Except.error "KeyError") Except.ok
    let c14 ← ((fields "churn_risk_14d").bind List.head?).elim
      (Except.error "KeyError") Except.ok
    let c30 ← ((fields "churn_risk_30d").bind List.head?).elim
      (Except.error "KeyError") Except.ok
    let hs ← ((fields "health_score").bind List.head?).elim
      (Except.error "KeyError") Except.ok
    pure ⟨fss, sv, c14, c30, hs⟩
  | .arrayResp vals => do
    let fss ← (vals.get? 0).elim (Except.error "IndexError") Except.ok
    let sv ← (vals.get? 1).elim (Except.error "IndexError") Except.ok
    let c14 ← (vals.get? 2).elim (Except.error "IndexError") Except.ok
    let c30 ← (vals.get? 3).elim (Except.error "IndexError") Except.ok
    let hs ← (vals.get? 4).elim (Except.error "IndexError") Except.ok
    pure ⟨fss, sv, c14, c30, hs⟩

/-- The conservative default prediction returned on any inference error
(`ai-analysis/handler.py` lines 300-307). -/
def default_prediction : Pred :=
  { first_session_success := 0.5
    session_velocity := 0
    churn_risk_14d := 0.5
    churn_risk_30d := 0.5
    health_score := 50 }

/-- `invoke_sagemaker` (`ai-analysis/handler.py` lines 252-307). The
transport (serialization + endpoint call + JSON decode + `predictions[0]`
lookup) is modelled by its outcome, an `Except` value; the broad
`except Exception` converts every error — transport or field parsing —
into `default_prediction`, so the function is total. -/
def invoke_sagemaker (transport : Except String SMPredictions) : Pred :=
  match transport.bind parse_predictions with
  | .ok p => p
  | .error _ => default_prediction

/-- The candidate recommendation list of `generate_recommendations`
(`ai-analysis/handler.py` lines 352-405) before the `[:5]` truncation:
each rule appends its messages in source order. -/
def candidate_recommendations (m : Metrics) (p : Pred) (segment : String)
    (entity_type : String) : List String :=
  if entity_type = "tutor" then
    let burnout_risk := p.churn_risk_14d
    (if burnout_risk > 0.6 then
      ["⚠️ HIGH BURNOUT RISK: Schedule wellness check-in within 48 hours"] else [])
    ++ (if getD m "utilization_rate" 0 > 0.9 then
      ["High utilization - suggest reducing hours or adding breaks"] else [])
    ++ (if getD m "avg_rating" 5 < 4 then
      ["Low ratings detected - provide coaching or additional training"] else [])
    ++ (if p.session_velocity < 0.5 then
      ["Low booking rate - increase visibility or marketing support"] else [])
    ++ (if getD m "student_retention_rate" 1 < 0.5 then
      ["Low student retention - review teaching style and student feedback"] else [])
    ++ (if segment = "star" then
      ["✅ Star tutor - consider featuring in marketplace or bonus incentives"] else [])
  else
    (if p.churn_risk_14d > 0.6 then
      ["⚠️ HIGH CHURN RISK: Schedule proactive check-in call within 48 hours"]
      ++ (if getD m "sessions_7d" 0 = 0 then
        ["No sessions in 7 days - send re-engagement campaign"] else [])
      ++ (if getD m "ib_calls_14d" 0 ≥ 2 then
        ["Multiple IB calls detected - assign dedicated account manager"] else [])
    else [])
    ++ (if p.session_velocity < 0.5 ∧ segment ≠ "churned" then
      ["Low session frequency - offer scheduling assistance or flexible hours"] else [])
    ++ (if getD m "payment_success_rate_30d" 1 < 0.9 then
      ["Payment failures detected - update billing information"] else [])
    ++ (if getD m "tutor_consistency_score" 1 < 0.5 then
      ["Low tutor consistency - assign preferred tutor for better match"] else [])
    ++ (if p.first_session_success < 0.5 then
      ["Low first session success probability - provide onboarding support"] else [])
    ++ (if segment = "thriving" then
      ["✅ Thriving customer - consider upsell or referral program"] else [])

/-- `generate_recommendations` (`ai-analysis/handler.py` lines 352-405):
both the tutor and the student branch return `recommendations[:5]`. -/
def generate_recommendations (m : Metrics) (p : Pred) (segment : String)
    (entity_type : String) : List String :=
  (candidate_recommendations m p segment entity_type).take 5

/-- Python `int()` on a float: truncation toward zero. -/
def pyInt (q : ℚ) : ℤ := if q < 0 then -(Int.floor (-q)) else Int.floor q

/-- One insight record as assembled by `create_insights_from_predictions`
(`ai-analysis/handler.py` lines 407-516); the free-text `explanation` is
not modelled (no claim depends on it). -/
structure InsightData where
  prediction_type : String
  risk_score : ℤ
  confidence : ℚ
deriving DecidableEq, Repr

/-- The `insights_to_create` list of `create_insights_from_predictions`
(`ai-analysis/handler.py` lines 425-516): four threshold-gated insights
followed by the two unconditional ones, in source order. -/
def insights_to_create (p : Pred) : List InsightData :=
  let max_churn := max p.churn_risk_14d p.churn_risk_30d
  (if max_churn > 0.3 then
    [⟨"churn_risk", pyInt (max_churn * 100), 0.85⟩] else [])
  ++ (if p.health_score < 70 then
    [⟨"customer_health", pyInt (100 - p.health_score), 0.88⟩] else [])
  ++ (if p.session_velocity < 0.5 then
    [⟨"session_quality", min (pyInt ((0.5 - p.session_velocity) * 200)) 100, 0.82⟩] else [])
  ++ (if p.first_session_success < 0.6 then
    [⟨"first_session_success", pyInt ((1 - p.first_session_success) * 100), 0.79⟩] else [])
  ++ [⟨"tutor_capacity", 100 - min (pyInt (p.session_velocity * 20)) 100, 0.75⟩]
  ++ [⟨"marketplace_balance", 100 - pyInt p.health_score, 0.80⟩]

/-- A persisted insight item as written by the DynamoDB loop of
`create_insights_from_predictions` (`ai-analysis/handler.py` lines
518-550); `now` is the batch's base timestamp in epoch seconds and the
`ttl` attribute is `now` plus 30 days (lines 421-423). -/
structure StoredInsight where
  prediction_type : String
  risk_score : ℤ
  confidence : ℚ
  ttl : ℕ
deriving DecidableEq, Repr

/-- The prediction-derived insight write path: every insight of the batch
gets `ttl = int((base_timestamp + timedelta(days=30)).timestamp())`. -/
def write_insights (now : ℕ) (p : Pred) : List StoredInsight :=
  (insights_to_create p).map fun d =>
    ⟨d.prediction_type, d.risk_score, d.confidence, now + 30 * 24 * 60 * 60⟩

/-- The `ttl` attribute written by `store_insight` on the alert-driven LLM
insight path (`ai/handler.py` line 214): `int(time.time()) + (90 * 24 *
60 * 60)`. -/
def store_insight_ttl (now : ℕ) : ℕ := now + 90 * 24 * 60 * 60

/-- The tutor-side fields touched by the session branch of
`update_metrics` (`process/handler.py` lines 109-125). Counters are
stored integers; `avg_rating` is a stored Decimal, modelled as `ℚ`. -/
structure TutorMetrics where
  sessions_7d : ℤ
  sessions_14d : ℤ
  sessions_30d : ℤ
  avg_rating : ℚ
deriving DecidableEq, Repr

/-- The tutor branch of `update_metrics` for a session event
(`process/handler.py` lines 109-125): the three session counters are
incremented first; then, for `session_completed` with a `tutor_rating`,
the rolling average is recomputed with `total_sessions` read from the
already-incremented `sessions_30d`. A zero `total_sessions` raises
`ZeroDivisionError` in Python, modelled as the `Except.error` case. -/
def update_tutor_on_session (m : TutorMetrics) (completed : Bool)
    (tutor_rating : Option ℚ) : Except String TutorMetrics :=
  let m1 : TutorMetrics :=
    { m with sessions_7d := m.sessions_7d + 1
             sessions_14d := m.sessions_14d + 1
             sessions_30d := m.sessions_30d + 1 }
  match completed, tutor_rating with
  | true, some new_rating =>
    let total_sessions := m1.sessions_30d
    if total_sessions = 0 then Except.error "ZeroDivisionError"
    else
      let current_avg := m1.avg_rating
      Except.ok { m1 with avg_rating :=
        ((current_avg * (total_sessions - 1 : ℤ)) + new_rating) / (total_sessions : ℚ) }
  | _, _ => Except.ok m1

/-- The stored metrics fields read by `detect_anomalies`
(`process/handler.py` lines 172-206). -/
structure SMetrics where
  entity_id : String
  entity_type : String
  ib_calls_14d : ℤ
  health_score : ℚ
  sessions_7d : ℤ
deriving DecidableEq, Repr

/-- An alert record as assembled by `detect_anomalies`; only the fields
the claims mention are modelled (`entity_id` is `Option` because the
supply/demand alert copies a possibly-missing payload subject). -/
structure AlertRec where
  alert_type : String
  severity : String
  entity_id : Option String
  entity_type : String
deriving DecidableEq, Repr

/-- The event fields read by `detect_anomalies`
(`process/handler.py` lines 209-228). -/
structure EventInfo where
  event_type : String
  balance_status : Option String
  subject : Option String
deriving DecidableEq, Repr

/-- `detect_anomalies` (`process/handler.py` lines 172-243): the two
metric-based anomaly rules (both require `entity_type == 'student'`)
followed by the supply/demand rule, in source order. -/
def detect_anomalies (event : EventInfo) (metrics : Option SMetrics) :
    List AlertRec :=
  (match metrics with
   | none => []
   | some m =>
     (if m.ib_calls_14d ≥ 3 ∧ m.entity_type = "student" then
       [⟨"high_ib_call_frequency", "warning", some m.entity_id, m.entity_type⟩] else [])
     ++ (if m.health_score < 70 ∧ m.entity_type = "student" then
       [⟨"low_health_score", if m.health_score < 50 then "critical" else "warning",
         some m.entity_id, m.entity_type⟩] else []))
  ++ (if event.event_type = "supply_demand_update" ∧
        event.balance_status = some "high_demand" then
    [⟨"supply_demand_imbalance", "info", event.subject, "subject"⟩] else [])

/-- One per-entity result of `update_entity_predictions`
(`ai-analysis/handler.py` lines 556-622); only the fields the batch
driver reads are modelled. -/
structure EntityResult where
  entity_id : String
  segment : String
deriving DecidableEq, Repr

/-- `process_entity_type` (`ai-analysis/handler.py` lines 698-735):
the loop calls `update_entity_predictions` — whose body is wrapped in a
broad `try/except` returning `None` on any error — and appends only
truthy results. `f` models `update_entity_predictions` by its outcome
per item (`none` = the entity raised and was swallowed). -/
def process_entity_type (f : α → Option EntityResult) (items : List α) :
    List EntityResult :=
  items.filterMap f

/-- One step of the segment-counting loop of `publish_cloudwatch_metrics`
(`ai-analysis/handler.py` lines 630-635): the counter dict is initialized
with the four student segments only, so any other segment raises
`KeyError` — and this loop sits outside the function's `try` block. -/
def bump_segment_count (acc : ℕ × ℕ × ℕ × ℕ) (seg : String) :
    Except String (ℕ × ℕ × ℕ × ℕ) :=
  if seg = "thriving" then Except.ok (acc.1 + 1, acc.2.1, acc.2.2.1, acc.2.2.2)
  else if seg = "healthy" then Except.ok (acc.1, acc.2.1 + 1, acc.2.2.1, acc.2.2.2)
  else if seg = "at_risk" then Except.ok (acc.1, acc.2.1, acc.2.2.1 + 1, acc.2.2.2)
  else if seg = "churned" then Except.ok (acc.1, acc.2.1, acc.2.2.1, acc.2.2.2 + 1)
  else Except.error ("KeyError: " ++ seg)

/-- The uncaught segment-counting phase of `publish_cloudwatch_metrics`
(`ai-analysis/handler.py` lines 624-642); the subsequent
`cloudwatch.put_metric_data` call is inside `try/except` and cannot
raise out, so it is not modelled. -/
def count_segments (results : List EntityResult) :
    Except String (ℕ × ℕ × ℕ × ℕ) :=
  results.foldlM (fun acc r => bump_segment_count acc r.segment) (0, 0, 0, 0)

/-- The batch summary assembled by `lambda_handler`
(`ai-analysis/handler.py` lines 785-805); only the count fields are
modelled. -/
structure BatchSummary where
  students_processed : ℕ
  tutors_processed : ℕ
  total_processed : ℕ
deriving DecidableEq, Repr

/-- The full-batch path of `lambda_handler` (`ai-analysis/handler.py`
lines 777-811): process students, process tutors, run
`publish_cloudwatch_metrics` over the concatenated results (whose
segment-counting loop can raise `KeyError`, which propagates), then
return the summary. -/
def lambda_handler_batch (f : α → Option EntityResult)
    (students tutors : List α) : Except String BatchSummary :=
  let student_results := process_entity_type f students
  let tutor_results := process_entity_type f tutors
  match count_segments (student_results ++ tutor_results) with
  | Except.error e => Except.error e
  | Except.ok _ =>
    Except.ok ⟨student_results.length, tutor_results.length,
      student_results.length + tutor_results.length⟩

/-- The empty metrics record: every key is absent, so every feature falls
back to its documented default. -/
def emptyMetrics : Metrics := fun _ => none

/-! ## Theorems -/

/-- C1: for every prediction record with `churn_risk_14d`, `churn_risk_30d`
in `[0,1]` and `health_score` in `[0,100]`, `classify_segment` with entity
kind `student` returns one of the four student labels, the returned label
is the one selected by the first matching rule in the priority order
churned, at_risk, thriving, healthy, and `churn_14d = 0.8` with
`health = 90` yields `churned`. -/
theorem classify_segment_student_total_first_match (p : Pred)
    (h14 : 0 ≤ p.churn_risk_14d ∧ p.churn_risk_14d ≤ 1)
    (h30 : 0 ≤ p.churn_risk_30d ∧ p.churn_risk_30d ≤ 1)
    (hh : 0 ≤ p.health_score ∧ p.health_score ≤ 100) :
    classify_segment p "student" ∈ ["thriving", "healthy", "at_risk", "churned"] ∧
    classify_segment p "student" = first_matching_student_rule p ∧
    classify_segment ⟨0.5, 1, 0.8, 0.5, 90⟩ "student" = "churned" := by
  clear h14 h30 hh
  refine ⟨?_, ?_, ?_⟩
  · unfold classify_segment
    rw [if_neg (by decide : ¬ ("student" = "tutor"))]
    dsimp only
    split_ifs <;> simp
  · unfold classify_segment first_matching_student_rule student_rule_list
    rw [if_neg (by decide : ¬ ("student" = "tutor"))]
    dsimp only
    by_cases h1 : p.churn_risk_14d > 0.7 ∨ p.health_score < 40
    · simp [h1]
    · by_cases h2 : p.churn_risk_14d > 0.4 ∨ p.churn_risk_30d > 0.6 ∨ p.health_score < 60
      · simp [h1, h2]
      · by_cases h3 : p.churn_risk_14d < 0.2 ∧ p.health_score > 80
        · simp [h1, h2, h3]
        · simp [h1, h2, h3]
  · unfold classify_segment
    rw [if_neg (by decide : ¬ ("student" = "tutor"))]
    norm_num

/-- C1 witness: the prediction `churn_14d = 0.8, health = 90` is inside
the claimed domain and is classified `churned`. -/
theorem classify_segment_student_witness :
    ((0 : ℚ) ≤ 0.8 ∧ (0.8 : ℚ) ≤ 1) ∧ ((0 : ℚ) ≤ 0.5 ∧ (0.5 : ℚ) ≤ 1) ∧
    ((0 : ℚ) ≤ 90 ∧ (90 : ℚ) ≤ 100) ∧
    classify_segment ⟨0.5, 1, 0.8, 0.5, 90⟩ "student" = "churned" :=
  ⟨by norm_num, by norm_num, by norm_num,
    (classify_segment_student_total_first_match ⟨0.5, 1, 0.8, 0.5, 90⟩
      (by norm_num) (by norm_num) (by norm_num)).2.2⟩

/-- C2: for every metrics mapping — including the empty one — the feature
vector has exactly 46 entries for kind `student` and exactly 46 for kind
`tutor`; on the empty mapping the student vector is exactly the vector of
documented per-position defaults, pinning each position to its field. -/
theorem engineer_features_length_46 (m : Metrics) :
    (engineer_features m "student").length = 46 ∧
    (engineer_features m "tutor").length = 46 ∧
    engineer_features emptyMetrics "student" =
      [0, 0, 0, 0, 0, 0,
       30, 30, 0, 0, 0, 0.3, 0.5,
       0, 0, 0, 60, 0, 50, 0, 0,
       1, 0, 50, 0, 1, 7,
       0, 0, 0, 0, 0, 0, 0, 24, 0, 0,
       0.5, 1, 0.7, 4, 0.8, 0.7, 0.75, 0, 0.8] := by
  refine ⟨?_, ?_, ?_⟩
  · unfold engineer_features
    rw [if_neg (by decide : ¬ ("student" = "tutor"))]
    rfl
  · unfold engineer_features engineer_tutor_features
    rw [if_pos (by decide : ("tutor" : String) = "tutor")]
    rfl
  · unfold engineer_features
    rw [if_neg (by decide : ¬ ("student" = "tutor"))]
    norm_num [getD, emptyMetrics]

/-- C3: whenever the inference call's transport or response parsing fails
(the `try` body produces an error), `invoke_sagemaker` returns exactly the
conservative default prediction record
`{first_session_success: 0.5, session_velocity: 0, churn_risk_14d: 0.5,
churn_risk_30d: 0.5, health_score: 50}`; the function is total, so no
exception reaches the caller. -/
theorem invoke_sagemaker_error_fallback (t : Except String SMPredictions)
    (e : String) (h : t.bind parse_predictions = Except.error e) :
    invoke_sagemaker t =
      { first_session_success := 0.5, session_velocity := 0,
        churn_risk_14d := 0.5, churn_risk_30d := 0.5, health_score := 50 } := by
  unfold invoke_sagemaker
  rw [h]
  rfl

/-- C3 witness: a transport error (timeout) produces the default record. -/
theorem invoke_sagemaker_error_fallback_witness :
    (Except.error "timeout" : Except String SMPredictions).bind parse_predictions =
      Except.error "timeout" ∧
    invoke_sagemaker (Except.error "timeout") =
      { first_session_success := 0.5, session_velocity := 0,
        churn_risk_14d := 0.5, churn_risk_30d := 0.5, health_score := 50 } :=
  ⟨rfl, invoke_sagemaker_error_fallback (Except.error "timeout") "timeout" rfl⟩

/-- C4 counterexample: for the in-range prediction
`fss = 0.9, velocity = 1, churn = 0.1/0.1, health = 80` the synthesizer
produces exactly 2 insights, refuting the claimed lower bound of 3. -/
theorem insights_lower_bound_counterexample :
    (insights_to_create ⟨0.9, 1, 0.1, 0.1, 80⟩).length = 2 ∧
    ¬ (3 ≤ (insights_to_create ⟨0.9, 1, 0.1, 0.1, 80⟩).length) := by
  constructor
  · norm_num [insights_to_create]
  · norm_num [insights_to_create]

/-- C4 amended: the synthesizer produces between 2 and 6 insights (the
lower bound is 2, not 3: all four gated insights can be skipped);
`tutor_capacity` and `marketplace_balance` are always present, and
`churn_risk` is present iff `max(churn_14d, churn_30d) > 0.3`. -/
theorem insights_count_bounds (p : Pred) :
    2 ≤ (insights_to_create p).length ∧ (insights_to_create p).length ≤ 6 ∧
    "tutor_capacity" ∈ (insights_to_create p).map InsightData.prediction_type ∧
    "marketplace_balance" ∈ (insights_to_create p).map InsightData.prediction_type ∧
    ("churn_risk" ∈ (insights_to_create p).map InsightData.prediction_type ↔
      max p.churn_risk_14d p.churn_risk_30d > 0.3) := by
  unfold insights_to_create
  by_cases h1 : max p.churn_risk_14d p.churn_risk_30d > 0.3 <;>
  by_cases h2 : p.health_score < 70 <;>
  by_cases h3 : p.session_velocity < 0.5 <;>
  by_cases h4 : p.first_session_success < 0.6 <;>
  simp [h1, h2, h3, h4]

/-- C5 counterexample: for a tutor whose stored record has
`sessions_30d = 4` and `avg_rating = 4.0`, a completed session rated 5
updates the average to `(4.0*4 + 5)/5 = 4.2`, not the claimed `4.25`:
the session counter is incremented before the average is recomputed, so
the divisor is 5. -/
theorem rolling_average_counterexample :
    update_tutor_on_session ⟨4, 4, 4, 4⟩ true (some 5) =
      Except.ok ⟨5, 5, 5, 21/5⟩ ∧ (21/5 : ℚ) ≠ 4.25 := by
  constructor
  · norm_num [update_tutor_on_session]
  · norm_num

/-- C5 amended: on a `session_completed` event with a tutor rating, the
stored average becomes `((old_avg*(n-1)) + new_rating)/n` where `n` is the
30-day session count AFTER this event's increment, i.e. the pre-event
count plus one; for any non-negative pre-event count that divisor is
positive, so no division-by-zero occurs (the guard is the increment, not
an explicit check). The claimed value 4.25 arises when the pre-event count
is 3, i.e. `n = 4`. -/
theorem rolling_average_update (m : TutorMetrics) (r : ℚ)
    (h : 0 ≤ m.sessions_30d) :
    update_tutor_on_session m true (some r) =
      Except.ok { sessions_7d := m.sessions_7d + 1
                  sessions_14d := m.sessions_14d + 1
                  sessions_30d := m.sessions_30d + 1
                  avg_rating := (m.avg_rating * (m.sessions_30d : ℚ) + r) /
                    ((m.sessions_30d : ℚ) + 1) } := by
  unfold update_tutor_on_session
  have hne : ¬ (m.sessions_30d + 1 = 0) := by omega
  simp only [hne, if_false]
  norm_num

/-- C5 witness: pre-event count 3 (so `n = 4`), old average 4.0, new
rating 5: the update succeeds (no division-by-zero) with average 4.25. -/
theorem rolling_average_update_witness :
    (0 : ℤ) ≤ 3 ∧
    update_tutor_on_session ⟨3, 3, 3, 4⟩ true (some 5) =
      Except.ok ⟨4, 4, 4, (4.25 : ℚ)⟩ := by
  refine ⟨by norm_num, ?_⟩
  rw [rolling_average_update ⟨3, 3, 3, 4⟩ 5 (by norm_num)]
  norm_num

/-- C6: for every input, the recommendation list is the candidate list
truncated to its first 5 entries, hence has length `min 5 (number of
candidates)`: at most 5 always, and exactly the first 5 candidates in
rule-priority order whenever more than 5 candidates fire. -/
theorem generate_recommendations_cap (m : Metrics) (p : Pred)
    (segment entity_type : String) :
    generate_recommendations m p segment entity_type =
      (candidate_recommendations m p segment entity_type).take 5 ∧
    (generate_recommendations m p segment entity_type).length =
      min 5 (candidate_recommendations m p segment entity_type).length :=
  ⟨rfl, List.length_take 5 _⟩

/-- C7 counterexample: at `churn_risk_14d = 0.357, churn_risk_30d = 0.2`
the churn insight's risk score is `int(35.7) = 35`, while rounding to the
nearest integer would give 36: the code truncates, it does not round. -/
theorem churn_risk_score_counterexample :
    ((insights_to_create ⟨0.9, 1, 0.357, 0.2, 80⟩).find?
      (fun d => d.prediction_type == "churn_risk")).map InsightData.risk_score =
      some 35 ∧
    round ((max (0.357 : ℚ) 0.2) * 100) = 36 ∧ (35 : ℤ) ≠ 36 := by
  refine ⟨?_, ?_, by norm_num⟩
  · norm_num [insights_to_create, pyInt]
  · norm_num [round_eq]

/-- C7 amended: whenever `max(churn_14d, churn_30d) > 0.3`, the
`churn_risk` insight is the first churn-typed entry and its risk score is
`⌊max_churn * 100⌋` — Python `int()` truncation toward zero (equal to the
floor on this positive range), not round-to-nearest. -/
theorem churn_risk_score_floor (p : Pred)
    (h : max p.churn_risk_14d p.churn_risk_30d > 0.3) :
    (insights_to_create p).find? (fun d => d.prediction_type == "churn_risk") =
      some ⟨"churn_risk", Int.floor (max p.churn_risk_14d p.churn_risk_30d * 100),
        0.85⟩ := by
  have hpos : ¬ ((max p.churn_risk_14d p.churn_risk_30d) * 100 < 0) := by
    have h0 : (0:ℚ) < max p.churn_risk_14d p.churn_risk_30d := lt_trans (by norm_num) h
    nlinarith
  simp only [insights_to_create, if_pos h]
  simp [pyInt, hpos]

/-- C7 witness: at `churn = 0.357/0.2` the gate fires and the stored churn
risk score is the truncation 35. -/
theorem churn_risk_score_floor_witness :
    max (0.357 : ℚ) 0.2 > 0.3 ∧
    (insights_to_create ⟨0.9, 1, 0.357, 0.2, 80⟩).find?
      (fun d => d.prediction_type == "churn_risk") =
      some ⟨"churn_risk", 35, 0.85⟩ := by
  refine ⟨by norm_num, ?_⟩
  rw [churn_risk_score_floor ⟨0.9, 1, 0.357, 0.2, 80⟩ (by norm_num)]
  norm_num

/-- Concrete batch for C8: `update_entity_predictions` raises (and is
swallowed to `None`) on entity `s_fail`; the tutor `t_star` classifies
into segment `star`. -/
def c8_outcome : String → Option EntityResult := fun id =>
  if id = "s_fail" then none
  else if id = "t_star" then some ⟨"t_star", "star"⟩
  else some ⟨id, "healthy"⟩

/-- C8: per-entity errors are indeed swallowed — for the 3-student batch
where `s_fail` raises, the result list has length `3 - 1` and omits
`s_fail` — but the top-level driver does NOT always return its summary:
with one `star`-segment tutor in the run, the segment-counting loop of
`publish_cloudwatch_metrics` (initialized with the four student segments
only, outside any `try`) raises `KeyError: star`, which propagates out of
`lambda_handler`. -/
theorem batch_driver_keyerror :
    process_entity_type c8_outcome ["s_a", "s_fail", "s_b"] =
      [⟨"s_a", "healthy"⟩, ⟨"s_b", "healthy"⟩] ∧
    (process_entity_type c8_outcome ["s_a", "s_fail", "s_b"]).length = 3 - 1 ∧
    lambda_handler_batch c8_outcome ["s_a", "s_fail", "s_b"] ["t_star"] =
      Except.error "KeyError: star" :=
  ⟨rfl, rfl, rfl⟩

/-- C9 counterexample: the alert-driven LLM insight path (`store_insight`)
writes `ttl = now + 90*24*60*60`, not 30 days after creation. -/
theorem insight_ttl_counterexample :
    store_insight_ttl 0 = 7776000 ∧ (7776000 : ℕ) ≠ 0 + 30 * 24 * 60 * 60 :=
  ⟨rfl, by norm_num⟩

/-- C9 amended: every prediction-derived insight is persisted with a TTL
of exactly 30 days (2592000 s) after the batch's creation timestamp, while
every alert-driven LLM insight is persisted with a TTL of 90 days
(7776000 s) after its creation time. -/
theorem insight_ttl_by_path (now : ℕ) (p : Pred) :
    ((write_insights now p).all fun si => si.ttl == now + 2592000) = true ∧
    store_insight_ttl now = now + 7776000 := by
  constructor
  · simp [write_insights, List.all_eq_true]
  · rfl

/-- C10: the high-IB-call-frequency and low-health-score anomaly alerts
are emitted only for metrics records of entity type `student`: for any
other entity type, neither alert appears in the output of
`detect_anomalies`, regardless of `ib_calls_14d` or `health_score`. -/
theorem metric_alerts_student_only (ev : EventInfo) (m : SMetrics)
    (h : m.entity_type ≠ "student") :
    "high_ib_call_frequency" ∉ (detect_anomalies ev (some m)).map AlertRec.alert_type ∧
    "low_health_score" ∉ (detect_anomalies ev (some m)).map AlertRec.alert_type := by
  unfold detect_anomalies
  split_ifs <;> simp_all

/-- C10 witness: a tutor record with `ib_calls_14d = 5` and
`health_score = 10` triggers neither metric alert. -/
theorem metric_alerts_student_only_witness :
    ("tutor" : String) ≠ "student" ∧
    "high_ib_call_frequency" ∉
      (detect_anomalies ⟨"session_completed", none, none⟩
        (some ⟨"tutor_1", "tutor", 5, 10, 0⟩)).map AlertRec.alert_type ∧
    "low_health_score" ∉
      (detect_anomalies ⟨"session_completed", none, none⟩
        (some ⟨"tutor_1", "tutor", 5, 10, 0⟩)).map AlertRec.alert_type :=
  ⟨by decide,
    (metric_alerts_student_only ⟨"session_completed", none, none⟩
      ⟨"tutor_1", "tutor", 5, 10, 0⟩ (by decide)).1,
    (metric_alerts_student_only ⟨"session_completed", none, none⟩
      ⟨"tutor_1", "tutor", 5, 10, 0⟩ (by decide)).2⟩

end IOps
